import Mathlib

/-!
# Verification of the anime-review API core logic

Shallow embedding of `src/backend/main.py` and `src/backend/database.py`.

Modelling conventions:
* SQLite storage is a pair of lists (`anime` rows, `reviews` rows); `REAL`
  ratings are `Rat`; timestamps are `Nat`.
* Each endpoint handler is a function from the storage state (plus request
  payload and fresh-id/timestamp inputs) to a result together with the
  resulting storage state.  Fallible handlers return `Except ApiError`.
* Pydantic field validation runs before the handler body, in field
  declaration order; it is inlined at the head of each handler function.
* `database.py` never executes `PRAGMA foreign_keys = ON` on the
  connections produced by `get_db`, and SQLite leaves foreign-key
  enforcement OFF by default; therefore the `ON DELETE CASCADE` clause
  declared on `reviews.anime_id` is inert at runtime and `DELETE FROM anime`
  removes only anime rows.  `delete_anime` is modelled accordingly.
* The `CHECK` constraints of the `reviews` table (`rating` in [0,10] and
  `status IN ('watched','planning')`) are enforced by SQLite on every row
  actually written; an `UPDATE` that violates them aborts with an
  uncaught `IntegrityError`, modelled as `ApiError.StorageCheckViolation`
  with the state unchanged.
-/

/-- Row of the `anime` table (`database.py`, `init_db`). -/
structure Anime where
  id : Nat
  title : String
  description : Option String
  created_at : Nat
deriving Repr, DecidableEq

/-- Row of the `reviews` table (`database.py`, `init_db`). -/
structure Review where
  id : Nat
  anime_id : Nat
  user_name : String
  rating : Rat
  review_text : Option String
  status : String
  created_at : Nat
deriving Repr, DecidableEq

/-- The whole SQLite database state. -/
structure DB where
  anime : List Anime
  reviews : List Review
deriving Repr, DecidableEq

/-- Error taxonomy of the API (spec §7).  `StorageCheckViolation` stands for a
raw storage-layer `IntegrityError` that escapes the handler untranslated. -/
inductive ApiError
  | NotFound
  | DuplicateTitle
  | InvalidRating
  | InvalidStatus
  | PlanningMustBeUnrated
  | StorageCheckViolation
deriving Repr, DecidableEq

/-- `AnimeCreate` pydantic model (`main.py` lines 11-12): only a `title`
field. -/
structure AnimeCreate where
  title : String
deriving Repr, DecidableEq

/-- A raw creation payload as a client may send it, possibly carrying a
`description` field.  Pydantic's default `Extra.ignore` drops unknown fields,
which `parseAnimeCreate` models. -/
structure RawAnimeCreate where
  title : String
  description : Option String
deriving Repr, DecidableEq

/-- Pydantic parsing of a raw payload into `AnimeCreate`: the `description`
field is silently dropped because `AnimeCreate` declares only `title`. -/
def parseAnimeCreate (raw : RawAnimeCreate) : AnimeCreate :=
  ⟨raw.title⟩

/-- `AnimeResponse` pydantic model (`main.py` lines 15-23). -/
structure AnimeResponse where
  id : Nat
  title : String
  description : Option String
  average_rating : Option Rat
  total_reviews : Nat
  latest_review_text : Option String
  latest_review_user : Option String
  created_at : Nat
deriving Repr, DecidableEq

/-- `ReviewCreate` pydantic model (`main.py` lines 26-31). -/
structure ReviewCreate where
  anime_id : Nat
  user_name : String
  rating : Rat
  review_text : Option String
  status : String
deriving Repr, DecidableEq

/-- `ReviewUpdate` pydantic model (`main.py` lines 52-55): every field
optional, and — unlike `ReviewCreate` — no `status` validator at all. -/
structure ReviewUpdate where
  rating : Option Rat
  review_text : Option String
  status : Option String
deriving Repr, DecidableEq

/-- `ReviewCreate.validate_rating` (`main.py` lines 33-37): true iff the
rating is accepted. -/
def validate_rating (v : Rat) : Bool :=
  !(v < 0 || v > 10)

/-- `ReviewCreate.validate_status` (`main.py` lines 39-43): true iff the
status is accepted. -/
def validate_status (v : String) : Bool :=
  v == "watched" || v == "planning"

/-- `ReviewUpdate.validate_rating` (`main.py` lines 57-61): true iff the
optional rating is rejected (present and out of range).
Note: `ReviewCreate.validate_rating_with_status` (lines 45-49) reads
`values.get('status')` while validating `rating`, but `status` is declared
after `rating`, so at that point `values` has no `status` key and the
check never fires; the cross-field rule is instead enforced by the handlers
(lines 203-205 and 235-237), which is what the model encodes. -/
def updateRatingInvalid (u : ReviewUpdate) : Bool :=
  match u.rating with
  | some v => decide (v < 0 ∨ v > 10)
  | none => false

/-- Next AUTOINCREMENT id for the `anime` table. -/
def nextAnimeId (db : DB) : Nat :=
  (db.anime.foldr (fun a m => max a.id m) 0) + 1

/-- Next AUTOINCREMENT id for the `reviews` table. -/
def nextReviewId (db : DB) : Nat :=
  (db.reviews.foldr (fun r m => max r.id m) 0) + 1

/-- `SELECT * FROM reviews WHERE id = ?` (first row). -/
def fetch_review (db : DB) (rid : Nat) : Option Review :=
  db.reviews.find? (fun r => r.id == rid)

/-- `SELECT id FROM anime WHERE id = ?` — existence check used by
`create_review` (`main.py` lines 196-201). -/
def anime_exists (db : DB) (aid : Nat) : Bool :=
  db.anime.any (fun a => a.id == aid)

/-- `create_anime` (`main.py` lines 158-180): `INSERT INTO anime
(title, description) VALUES (?, NULL)`; the UNIQUE constraint on `title`
makes a duplicate insert raise, caught and translated to a 400
"already exists" (`DuplicateTitle`).  On success the response row is built
by the literal `SELECT ... NULL as average_rating, 0 as total_reviews,
NULL as latest_review_text, NULL as latest_review_user ...`. -/
def create_anime (db : DB) (req : AnimeCreate) (now : Nat) :
    Except ApiError AnimeResponse × DB :=
  if db.anime.any (fun a => a.title == req.title) then
    (Except.error ApiError.DuplicateTitle, db)
  else
    let aid := nextAnimeId db
    let a : Anime := ⟨aid, req.title, none, now⟩
    (Except.ok ⟨aid, req.title, none, none, 0, none, none, now⟩,
     ⟨db.anime ++ [a], db.reviews⟩)

/-- `delete_anime` (`main.py` lines 183-189): `DELETE FROM anime WHERE id=?`
then `{"ok": True}` unconditionally.  With foreign-key enforcement off (see
module docstring) the declared `ON DELETE CASCADE` does not fire, so the
`reviews` table is untouched. -/
def delete_anime (db : DB) (aid : Nat) : Bool × DB :=
  (true, ⟨db.anime.filter (fun a => a.id ≠ aid), db.reviews⟩)

/-- `delete_review` (`main.py` lines 267-273): `DELETE FROM reviews WHERE
id=?` then `{"ok": True}` unconditionally. -/
def delete_review (db : DB) (rid : Nat) : Bool × DB :=
  (true, ⟨db.anime, db.reviews.filter (fun r => r.id ≠ rid)⟩)

/-- `create_review` (`main.py` lines 192-218): pydantic validation of the
payload (rating range, then status enumeration), then the handler checks
that the anime exists (404), then the cross-field planning rule (400),
then inserts the row verbatim.  The inserted values always satisfy the
table CHECK constraints, so the insert cannot fail.  No validation of
`user_name` exists anywhere on this path. -/
def create_review (db : DB) (req : ReviewCreate) (now : Nat) :
    Except ApiError Review × DB :=
  if ¬ validate_rating req.rating then
    (Except.error ApiError.InvalidRating, db)
  else if ¬ validate_status req.status then
    (Except.error ApiError.InvalidStatus, db)
  else if ¬ anime_exists db req.anime_id then
    (Except.error ApiError.NotFound, db)
  else if req.status = "planning" ∧ req.rating > 0 then
    (Except.error ApiError.PlanningMustBeUnrated, db)
  else
    let r : Review :=
      ⟨nextReviewId db, req.anime_id, req.user_name, req.rating,
       req.review_text, req.status, now⟩
    (Except.ok r, ⟨db.anime, db.reviews ++ [r]⟩)

/-- `main.py` line 232: `current_status = review_update.status if
review_update.status else current_review['status']` — Python truthiness, so
an empty string falls back to the stored status. -/
def mergedStatus (u : ReviewUpdate) (cur : Review) : String :=
  match u.status with
  | some s => if s = "" then cur.status else s
  | none => cur.status

/-- `main.py` line 233: `new_rating = review_update.rating if
review_update.rating is not None else current_review['rating']`. -/
def mergedRating (u : ReviewUpdate) (cur : Review) : Rat :=
  match u.rating with
  | some v => v
  | none => cur.rating

/-- The row resulting from applying the `UPDATE ... SET` parts built in
`main.py` lines 239-252: `rating` and `review_text` are written when not
`None`, `status` only when truthy (non-`None` and non-empty). -/
def applyUpdate (u : ReviewUpdate) (cur : Review) : Review :=
  { cur with
    rating := match u.rating with | some v => v | none => cur.rating
    review_text := match u.review_text with | some t => some t | none => cur.review_text
    status := match u.status with
              | some s => if s = "" then cur.status else s
              | none => cur.status }

/-- Whether `update_parts` is nonempty (`main.py` line 254): at least one
column is actually written. -/
def hasUpdateParts (u : ReviewUpdate) : Bool :=
  u.rating.isSome || u.review_text.isSome ||
    (match u.status with | some s => s ≠ "" | none => false)

/-- Row-level CHECK constraints of the `reviews` table
(`database.py` lines 23-25), re-evaluated by SQLite on every written row. -/
def reviewRowCheck (r : Review) : Bool :=
  (decide (0 ≤ r.rating) && decide (r.rating ≤ 10)) &&
    (r.status == "watched" || r.status == "planning")

/-- `update_review` (`main.py` lines 221-264): pydantic validates an
incoming rating's range; the handler loads the current row (404 if absent),
re-checks the planning rule on the merged view, then executes the `UPDATE`
for the collected parts.  A written row violating a table CHECK constraint
aborts the `UPDATE` (state unchanged) and the raw storage error escapes. -/
def update_review (db : DB) (rid : Nat) (u : ReviewUpdate) :
    Except ApiError Review × DB :=
  if updateRatingInvalid u then
    (Except.error ApiError.InvalidRating, db)
  else
    match fetch_review db rid with
    | none => (Except.error ApiError.NotFound, db)
    | some cur =>
      if mergedStatus u cur = "planning" ∧ mergedRating u cur > 0 then
        (Except.error ApiError.PlanningMustBeUnrated, db)
      else if hasUpdateParts u then
        let new := applyUpdate u cur
        if reviewRowCheck new then
          (Except.ok new,
           ⟨db.anime, db.reviews.map (fun r => if r.id = rid then new else r)⟩)
        else
          (Except.error ApiError.StorageCheckViolation, db)
      else
        (Except.ok cur, db)

/-! ## Aggregation (`get_all_anime` / `get_anime`, `main.py` lines 94-155)

Both endpoints compute, per anime row:
`AVG(CASE WHEN r.status = 'watched' THEN r.rating ELSE NULL END)` and
`COUNT(r.id)` over the rows of `anime a LEFT JOIN reviews r ON a.id =
r.anime_id` grouped by `a.id`. -/

/-- SQL `AVG` over a column of possibly-NULL values: NULLs are ignored and
an all-NULL (or empty) column gives NULL. -/
def sqlAvg (vals : List (Option Rat)) : Option Rat :=
  let xs := vals.filterMap id
  if xs.length = 0 then none else some (xs.sum / (xs.length : Rat))

/-- The group of `LEFT JOIN` rows for one anime: its matching reviews, or a
single row with NULL review columns when it has none. -/
def left_join_rows (db : DB) (a : Anime) : List (Option Review) :=
  let rs := db.reviews.filter (fun r => r.anime_id == a.id)
  if rs.isEmpty then [none] else rs.map some

/-- `CASE WHEN r.status = 'watched' THEN r.rating ELSE NULL END` on one
join row. -/
def watchedCase (o : Option Review) : Option Rat :=
  o.bind (fun r => if r.status = "watched" then some r.rating else none)

/-- The `average_rating` column of `get_all_anime` / `get_anime`. -/
def anime_average_rating (db : DB) (a : Anime) : Option Rat :=
  sqlAvg ((left_join_rows db a).map watchedCase)

/-- The `total_reviews` column: `COUNT(r.id)` counts join rows whose review
side is non-NULL. -/
def anime_total_reviews (db : DB) (a : Anime) : Nat :=
  ((left_join_rows db a).filterMap id).length

/-- Spec-side notion (§4.2): the anime's reviews with status `watched`. -/
def watched_reviews (db : DB) (a : Anime) : List Review :=
  db.reviews.filter (fun r => r.anime_id == a.id && r.status == "watched")

/-- Spec-side notion (§4.2): arithmetic mean of a rating list, absent when
the list is empty. -/
def ratMean (l : List Rat) : Option Rat :=
  if l.length = 0 then none else some (l.sum / (l.length : Rat))

/-! ## Ranking (`get_stats`, `main.py` lines 276-303)

`SELECT LOWER(TRIM(a.title)) ..., AVG(r.rating), COUNT(r.id) FROM anime a
INNER JOIN reviews r ON a.id = r.anime_id WHERE r.status = 'watched'
GROUP BY normalized_title HAVING COUNT(r.id) > 0 ORDER BY average_rating
DESC`. -/

/-- SQLite `TRIM(x)`: strips space characters (0x20) from both ends. -/
def sqliteTrim (s : String) : String :=
  ⟨((s.data.dropWhile (fun c => c == ' ')).reverse.dropWhile
      (fun c => c == ' ')).reverse⟩

/-- SQLite `LOWER` folds ASCII letters A-Z only. -/
def asciiLower (c : Char) : Char :=
  if 65 ≤ c.toNat ∧ c.toNat ≤ 90 then Char.ofNat (c.toNat + 32) else c

/-- `LOWER(TRIM(a.title))`: the normalized grouping key. -/
def normKey (s : String) : String :=
  ⟨(sqliteTrim s).data.map asciiLower⟩

/-- The rows of `anime INNER JOIN reviews ... WHERE r.status = 'watched'`. -/
def watchedPairs (db : DB) : List (Anime × Review) :=
  db.anime.flatMap (fun a =>
    (db.reviews.filter (fun r => r.anime_id == a.id && r.status == "watched")).map
      (fun r => (a, r)))

/-- Grouping key of a join row. -/
def keyOf (p : Anime × Review) : String :=
  normKey p.1.title

/-- Distinct keys in order of first appearance (SQL `GROUP BY`). -/
def dedupFirst : List String → List String
  | [] => []
  | k :: ks => k :: (dedupFirst ks).filter (fun x => x ≠ k)

/-- One leaderboard row of `get_stats` (`main.py` lines 296-301). -/
structure RankedEntry where
  title : String
  average_rating : Rat
  review_count : Nat
deriving Repr, DecidableEq

/-- All join rows belonging to one normalized-title group. -/
def groupOf (db : DB) (k : String) : List (Anime × Review) :=
  (watchedPairs db).filter (fun p => keyOf p = k)

/-- The leaderboard row of one group: an arbitrary row's display title
(modelled as the first), `AVG(r.rating)` and `COUNT(r.id)`. -/
def entryOf (db : DB) (k : String) : RankedEntry :=
  let g := groupOf db k
  { title := ((g.head?).map (fun p => p.1.title)).getD ""
    average_rating := (g.map (fun p => p.2.rating)).sum / (g.length : Rat)
    review_count := g.length }

/-- The grouped rows before `ORDER BY`. -/
def statsGroups (db : DB) : List RankedEntry :=
  (dedupFirst ((watchedPairs db).map keyOf)).map (entryOf db)

/-- Descending order on average rating (`ORDER BY average_rating DESC`). -/
def rankLe (e f : RankedEntry) : Prop :=
  f.average_rating ≤ e.average_rating

instance : DecidableRel rankLe :=
  fun e f => inferInstanceAs (Decidable (f.average_rating ≤ e.average_rating))

instance : IsTotal RankedEntry rankLe :=
  ⟨fun e f => le_total f.average_rating e.average_rating⟩

instance : IsTrans RankedEntry rankLe :=
  ⟨fun _ _ _ h h2 => le_trans h2 h⟩

/-- `get_stats`: the grouped rows sorted by average rating, descending. -/
def get_stats (db : DB) : List RankedEntry :=
  List.insertionSort rankLe (statsGroups db)

/-! ## Concrete states used by witnesses and counterexamples -/

/-- A title row. -/
def exAnime : Anime := ⟨1, "Naruto", none, 0⟩

/-- A watched review of `exAnime` with a nonzero rating. -/
def exReview : Review := ⟨1, 1, "John", 8, none, "watched", 1⟩

/-- A database with one title and one watched review. -/
def exDB : DB := ⟨[exAnime], [exReview]⟩

/-- A database whose single title has only a planning review. -/
def exPlanningDB : DB :=
  ⟨[⟨1, "Bleach", none, 0⟩], [⟨1, 1, "Ann", 0, none, "planning", 1⟩]⟩

/-- The ranking example: title A with watched ratings 10 and 8, title B with
watched rating 6. -/
def exRankDB : DB :=
  ⟨[⟨1, "A", none, 0⟩, ⟨2, "B", none, 1⟩],
   [⟨1, 1, "u", 10, none, "watched", 1⟩, ⟨2, 1, "v", 8, none, "watched", 2⟩,
    ⟨3, 2, "w", 6, none, "watched", 3⟩]⟩

/-! ## Claim theorems -/

/-- Claim C1 (code bug): deleting a Title is supposed to cascade to its
Reviews, and the schema even declares `ON DELETE CASCADE`; but since no
connection ever runs `PRAGMA foreign_keys = ON`, SQLite never enforces it.
Evaluating the code at a one-title/one-review state: the delete removes the
title row, the review row survives, and a subsequent fetch of that review id
still finds it instead of reporting NotFound. -/
theorem C1_delete_title_leaves_orphan_review :
    (delete_anime exDB 1).2.anime = [] ∧
    (delete_anime exDB 1).2.reviews = [exReview] ∧
    fetch_review (delete_anime exDB 1).2 1 = some exReview ∧
    (update_review (delete_anime exDB 1).2 1 ⟨none, none, none⟩).1 =
      Except.ok exReview :=
  ⟨rfl, rfl, rfl, rfl⟩

/-- Claim C2: a partial update whose merged view (incoming status if truthy,
else stored; incoming rating if present, else stored) has status `planning`
and positive rating is rejected with `PlanningMustBeUnrated` and the state is
returned unchanged.  The hypothesis that an incoming rating is in range
reflects pydantic field validation, which runs before the handler. -/
theorem C2_merged_planning_update_rejected (db : DB) (rid : Nat)
    (u : ReviewUpdate) (cur : Review)
    (hfetch : fetch_review db rid = some cur)
    (hrat : updateRatingInvalid u = false)
    (hst : mergedStatus u cur = "planning")
    (hpos : 0 < mergedRating u cur) :
    update_review db rid u = (Except.error ApiError.PlanningMustBeUnrated, db) := by
  simp [update_review, hrat, hfetch, hst, hpos]

/-- Witness for C2: updating only the status to `planning` on a stored
watched review with rating 8 is rejected and the state is unchanged. -/
theorem C2_witness :
    fetch_review exDB 1 = some exReview ∧
    updateRatingInvalid ⟨none, none, some "planning"⟩ = false ∧
    mergedStatus ⟨none, none, some "planning"⟩ exReview = "planning" ∧
    0 < mergedRating ⟨none, none, some "planning"⟩ exReview ∧
    update_review exDB 1 ⟨none, none, some "planning"⟩ =
      (Except.error ApiError.PlanningMustBeUnrated, exDB) :=
  ⟨rfl, rfl, rfl, by decide,
   C2_merged_planning_update_rejected exDB 1 ⟨none, none, some "planning"⟩
     exReview rfl rfl rfl (by decide)⟩

/-- Claim C6: creating a second Title with an identical title string fails
with `DuplicateTitle`, leaving the first Title intact and adding no second
record. -/
theorem C6_duplicate_title_rejected (db : DB) (t : String) (n1 n2 : Nat)
    (hfresh : ∀ a ∈ db.anime, a.title ≠ t) :
    create_anime db ⟨t⟩ n1 =
      (Except.ok ⟨nextAnimeId db, t, none, none, 0, none, none, n1⟩,
       ⟨db.anime ++ [⟨nextAnimeId db, t, none, n1⟩], db.reviews⟩) ∧
    create_anime ⟨db.anime ++ [⟨nextAnimeId db, t, none, n1⟩], db.reviews⟩ ⟨t⟩ n2 =
      (Except.error ApiError.DuplicateTitle,
       ⟨db.anime ++ [⟨nextAnimeId db, t, none, n1⟩], db.reviews⟩) := by
  have hany : db.anime.any (fun a => a.title == t) = false := by
    rw [List.any_eq_false]
    intro a ha
    simpa using hfresh a ha
  constructor
  · simp [create_anime, hany]
  · simp [create_anime, List.any_append, hany]

/-- Witness for C6 at a concrete state. -/
theorem C6_witness :
    (∀ a ∈ (DB.mk [] []).anime, a.title ≠ "Naruto") ∧
    create_anime ⟨[], []⟩ ⟨"Naruto"⟩ 0 =
      (Except.ok ⟨1, "Naruto", none, none, 0, none, none, 0⟩,
       ⟨[⟨1, "Naruto", none, 0⟩], []⟩) ∧
    create_anime ⟨[⟨1, "Naruto", none, 0⟩], []⟩ ⟨"Naruto"⟩ 5 =
      (Except.error ApiError.DuplicateTitle, ⟨[⟨1, "Naruto", none, 0⟩], []⟩) := by
  have h := C6_duplicate_title_rejected ⟨[], []⟩ "Naruto" 0 5 (by decide)
  exact ⟨by decide, h.1, h.2⟩

/-- Claim C7, counterexample: a Review creation request with an empty
`user_name` is accepted, and the Review is stored with the empty name —
no non-emptiness validation exists on the creation path. -/
theorem C7_counterexample :
    (create_review exDB ⟨1, "", 5, none, "watched"⟩ 9).1 =
      Except.ok ⟨2, 1, "", 5, none, "watched", 9⟩ ∧
    (⟨2, 1, "", 5, none, "watched", 9⟩ : Review) ∈
      (create_review exDB ⟨1, "", 5, none, "watched"⟩ 9).2.reviews :=
  ⟨rfl, by decide⟩

/-- Claim C7 as amended: `user_name` is not validated at all; any string,
including the empty string, is stored verbatim in the created Review. -/
theorem C7_user_name_stored_verbatim (db : DB) (req : ReviewCreate) (now : Nat)
    (hr : validate_rating req.rating = true)
    (hs : validate_status req.status = true)
    (ha : anime_exists db req.anime_id = true)
    (hp : ¬ (req.status = "planning" ∧ req.rating > 0)) :
    create_review db req now =
      (Except.ok ⟨nextReviewId db, req.anime_id, req.user_name, req.rating,
        req.review_text, req.status, now⟩,
       ⟨db.anime, db.reviews ++ [⟨nextReviewId db, req.anime_id, req.user_name,
        req.rating, req.review_text, req.status, now⟩]⟩) := by
  simp [create_review, hr, hs, ha, hp]

/-- Witness for amended C7: the empty user name is accepted and stored. -/
theorem C7_witness :
    validate_rating (5 : Rat) = true ∧
    validate_status "watched" = true ∧
    anime_exists exDB 1 = true ∧
    create_review exDB ⟨1, "", 5, none, "watched"⟩ 9 =
      (Except.ok ⟨2, 1, "", 5, none, "watched", 9⟩,
       ⟨exDB.anime, exDB.reviews ++ [⟨2, 1, "", 5, none, "watched", 9⟩]⟩) := by
  have h := C7_user_name_stored_verbatim exDB ⟨1, "", 5, none, "watched"⟩ 9
    (by decide) rfl rfl (by decide)
  exact ⟨by decide, rfl, rfl, h⟩

/-- Claim C8: Title creation ignores any client-supplied description (the
pydantic model has only a `title` field), stores a NULL description, and the
response reports NULL description, NULL average, zero reviews and NULL
latest-review fields — independently of `raw.description`. -/
theorem C8_create_title_ignores_description (db : DB) (raw : RawAnimeCreate)
    (now : Nat) (hfresh : ∀ a ∈ db.anime, a.title ≠ raw.title) :
    create_anime db (parseAnimeCreate raw) now =
      (Except.ok ⟨nextAnimeId db, raw.title, none, none, 0, none, none, now⟩,
       ⟨db.anime ++ [⟨nextAnimeId db, raw.title, none, now⟩], db.reviews⟩) := by
  have hany : db.anime.any (fun a => a.title == raw.title) = false := by
    rw [List.any_eq_false]
    intro a ha
    simpa using hfresh a ha
  simp [create_anime, parseAnimeCreate, hany]

/-- Witness for C8: a request carrying a description still yields a stored
and reported NULL description. -/
theorem C8_witness :
    (∀ a ∈ (DB.mk [] []).anime, a.title ≠ "Naruto") ∧
    create_anime ⟨[], []⟩ (parseAnimeCreate ⟨"Naruto", some "Ninja story"⟩) 3 =
      (Except.ok ⟨1, "Naruto", none, none, 0, none, none, 3⟩,
       ⟨[⟨1, "Naruto", none, 3⟩], []⟩) := by
  have h := C8_create_title_ignores_description ⟨[], []⟩
    ⟨"Naruto", some "Ninja story"⟩ 3 (by decide)
  exact ⟨by decide, h⟩

/-- Claim C9: both delete endpoints return `{"ok": true}` unconditionally;
deleting an id that is not present leaves the state unchanged, and deleting
the same id twice equals deleting it once. -/
theorem C9_delete_idempotent (db : DB) (aid rid : Nat) :
    (delete_anime db aid).1 = true ∧
    (delete_review db rid).1 = true ∧
    ((∀ a ∈ db.anime, a.id ≠ aid) → (delete_anime db aid).2 = db) ∧
    ((∀ r ∈ db.reviews, r.id ≠ rid) → (delete_review db rid).2 = db) ∧
    delete_anime (delete_anime db aid).2 aid = delete_anime db aid ∧
    delete_review (delete_review db rid).2 rid = delete_review db rid := by
  refine ⟨rfl, rfl, ?_, ?_, ?_, ?_⟩
  · intro h
    obtain ⟨as, rs⟩ := db
    simp only [delete_anime, DB.mk.injEq, and_true]
    exact List.filter_eq_self.mpr (fun a ha => by simpa using h a ha)
  · intro h
    obtain ⟨as, rs⟩ := db
    simp only [delete_review, DB.mk.injEq, true_and]
    exact List.filter_eq_self.mpr (fun r hr => by simpa using h r hr)
  · simp [delete_anime, List.filter_filter]
  · simp [delete_review, List.filter_filter]

/-- Witness for C9: deleting the absent id 7 changes nothing. -/
theorem C9_witness :
    (∀ a ∈ exDB.anime, a.id ≠ 7) ∧ (∀ r ∈ exDB.reviews, r.id ≠ 7) ∧
    (delete_anime exDB 7).2 = exDB ∧ (delete_review exDB 7).2 = exDB := by
  have h := C9_delete_idempotent exDB 7 7
  exact ⟨by decide, by decide, h.2.2.1 (by decide), h.2.2.2.1 (by decide)⟩

/-- If the update carries no status (the `status = ?` part is never built),
the returned row keeps the stored status. -/
theorem update_status_none_keeps_status (db : DB) (rid : Nat)
    (ur : Option Rat) (ut : Option String) (cur res : Review)
    (hf : fetch_review db rid = some cur)
    (hok : (update_review db rid ⟨ur, ut, none⟩).1 = Except.ok res) :
    res.status = cur.status := by
  simp only [update_review, hf] at hok
  split at hok
  · simp at hok
  · split at hok
    · simp at hok
    · split at hok
      · split at hok
        · simp only [Except.ok.injEq] at hok
          subst hok
          simp [applyUpdate]
        · simp at hok
      · simp only [Except.ok.injEq] at hok
        subst hok
        rfl

/-- Claim C10: in a partial update, an empty-string status is treated as
absent — the merged-view check uses the stored status, the update behaves
exactly as if no status had been sent, and a completed update returns a row
with the stored status unchanged. -/
theorem C10_empty_status_treated_as_absent (db : DB) (rid : Nat)
    (u : ReviewUpdate) (hu : u.status = some "") :
    (∀ cur : Review, mergedStatus u cur = cur.status) ∧
    update_review db rid u = update_review db rid ⟨u.rating, u.review_text, none⟩ ∧
    (∀ cur res : Review, fetch_review db rid = some cur →
      (update_review db rid u).1 = Except.ok res → res.status = cur.status) := by
  obtain ⟨ur, ut, us⟩ := u
  simp only at hu
  subst hu
  have heq : update_review db rid ⟨ur, ut, some ""⟩ =
      update_review db rid ⟨ur, ut, none⟩ := rfl
  refine ⟨fun cur => by simp [mergedStatus], heq, ?_⟩
  intro cur res hf hok
  rw [heq] at hok
  exact update_status_none_keeps_status db rid ur ut cur res hf hok

/-- Witness for C10: sending `status = ""` together with a rating change
behaves exactly like sending no status, and the merged status is the stored
one. -/
theorem C10_witness :
    ((⟨some 7, none, some ""⟩ : ReviewUpdate).status = some "") ∧
    update_review exDB 1 ⟨some 7, none, some ""⟩ =
      update_review exDB 1 ⟨some 7, none, none⟩ ∧
    mergedStatus ⟨some 7, none, some ""⟩ exReview = exReview.status := by
  have h := C10_empty_status_treated_as_absent exDB 1 ⟨some 7, none, some ""⟩ rfl
  exact ⟨rfl, h.2.1, h.1 exReview⟩

/-- Claim C5, counterexample: a partial update carrying the invalid status
`"dropped"` is not rejected by validation with `InvalidStatus`; it reaches
the storage `UPDATE`, whose CHECK constraint aborts it, and the raw storage
error escapes untranslated. -/
theorem C5_counterexample :
    update_review exDB 1 ⟨none, none, some "dropped"⟩ =
      (Except.error ApiError.StorageCheckViolation, exDB) ∧
    ApiError.StorageCheckViolation ≠ ApiError.InvalidStatus :=
  ⟨rfl, by decide⟩

/-- Claim C5 as amended: on creation an invalid status is rejected with
`InvalidStatus` before any storage mutation; on partial update an invalid
non-empty status passes validation (the `ReviewUpdate` model has no status
validator), reaches the storage `UPDATE`, and surfaces as a raw storage
CHECK-constraint error with the state unchanged. -/
theorem C5_status_validation_split :
    (∀ (db : DB) (req : ReviewCreate) (now : Nat),
      validate_rating req.rating = true →
      req.status ≠ "watched" → req.status ≠ "planning" →
      create_review db req now = (Except.error ApiError.InvalidStatus, db)) ∧
    (∀ (db : DB) (rid : Nat) (u : ReviewUpdate) (cur : Review) (s : String),
      updateRatingInvalid u = false →
      fetch_review db rid = some cur →
      u.status = some s → s ≠ "" → s ≠ "watched" → s ≠ "planning" →
      update_review db rid u =
        (Except.error ApiError.StorageCheckViolation, db)) := by
  constructor
  · intro db req now hr hw hp
    simp [create_review, hr, validate_status, hw, hp]
  · intro db rid u cur s hrat hf hs hs0 hw hp
    obtain ⟨ur, ut, us⟩ := u
    simp only at hs
    subst hs
    simp [update_review, hrat, hf, mergedStatus, hs0, hp, hasUpdateParts,
      applyUpdate, reviewRowCheck, hw]

/-- Witness for amended C5: concrete creation and update requests with
status `"dropped"`. -/
theorem C5_witness :
    validate_rating (5 : Rat) = true ∧
    create_review exDB ⟨1, "X", 5, none, "dropped"⟩ 9 =
      (Except.error ApiError.InvalidStatus, exDB) ∧
    updateRatingInvalid ⟨none, none, some "dropped"⟩ = false ∧
    fetch_review exDB 1 = some exReview ∧
    update_review exDB 1 ⟨none, none, some "dropped"⟩ =
      (Except.error ApiError.StorageCheckViolation, exDB) := by
  have h := C5_status_validation_split
  exact ⟨by decide,
    h.1 exDB ⟨1, "X", 5, none, "dropped"⟩ 9 (by decide) (by decide) (by decide),
    rfl, rfl,
    h.2 exDB 1 ⟨none, none, some "dropped"⟩ exReview "dropped" rfl rfl rfl
      (by decide) (by decide) (by decide)⟩

/-- Splitting the conjunctive filter of `watched_reviews` into the join
filter followed by the status filter. -/
theorem watched_reviews_eq_filter (db : DB) (a : Anime) :
    watched_reviews db a =
      (db.reviews.filter (fun r => r.anime_id == a.id)).filter
        (fun r => r.status == "watched") := by
  rw [List.filter_filter]
  unfold watched_reviews
  congr 1
  funext r
  exact (Bool.and_comm _ _).symm

/-- Pushing `filterMap id` through a map that guards with a Boolean
predicate. -/
theorem filterMap_id_map_guard {α β : Type} (p : α → Bool) (g : α → β)
    (l : List α) :
    (l.map (fun x => if p x then some (g x) else none)).filterMap id =
      (l.filter p).map g := by
  induction l with
  | nil => rfl
  | cons x xs ih => cases h : p x <;> simp [List.filter_cons, h, ih]

/-- Claim C3: the aggregate average equals the arithmetic mean of exactly the
watched reviews' ratings, is absent (never 0) when there is no watched
review — planning reviews alone give no average — and `total_reviews`
counts every review of the title regardless of status. -/
theorem C3_aggregate_watched_mean (db : DB) (a : Anime) :
    anime_average_rating db a =
      ratMean ((watched_reviews db a).map (fun r => r.rating)) ∧
    anime_total_reviews db a =
      (db.reviews.filter (fun r => r.anime_id == a.id)).length ∧
    (watched_reviews db a = [] → anime_average_rating db a = none) := by
  have hbridge := watched_reviews_eq_filter db a
  have h1 : anime_average_rating db a =
      ratMean ((watched_reviews db a).map (fun r => r.rating)) := by
    rw [hbridge]
    cases hrs : db.reviews.filter (fun r => r.anime_id == a.id) with
    | nil =>
      simp [anime_average_rating, left_join_rows, hrs, sqlAvg, ratMean,
        watchedCase]
    | cons r0 rs' =>
      simp only [anime_average_rating, left_join_rows, hrs, List.isEmpty_cons,
        Bool.false_eq_true, if_false, List.map_map]
      have hcase : watchedCase ∘ some =
          fun r : Review => if r.status == "watched" then some r.rating
            else none := by
        funext r
        simp [watchedCase]
      rw [hcase, sqlAvg, filterMap_id_map_guard]
      rfl
  refine ⟨h1, ?_, ?_⟩
  · cases hrs : db.reviews.filter (fun r => r.anime_id == a.id) with
    | nil => simp [anime_total_reviews, left_join_rows, hrs]
    | cons r0 rs' =>
      simp [anime_total_reviews, left_join_rows, hrs, List.filterMap_map,
        Function.comp, List.filterMap_some]
  · intro hempty
    rw [h1, hempty]
    simp [ratMean]

/-- Witness for C3 at the planning-only state: the average is absent while
the review count is 1. -/
theorem C3_witness :
    anime_average_rating exPlanningDB ⟨1, "Bleach", none, 0⟩ = none ∧
    anime_total_reviews exPlanningDB ⟨1, "Bleach", none, 0⟩ = 1 ∧
    watched_reviews exPlanningDB ⟨1, "Bleach", none, 0⟩ = [] := by
  have h := C3_aggregate_watched_mean exPlanningDB ⟨1, "Bleach", none, 0⟩
  exact ⟨h.2.2 (by decide), by decide, by decide⟩

/-- `dedupFirst` produces a duplicate-free list. -/
theorem dedupFirst_nodup (l : List String) : (dedupFirst l).Nodup := by
  induction l with
  | nil => exact List.nodup_nil
  | cons k ks ih =>
    refine List.nodup_cons.mpr ⟨?_, ih.filter _⟩
    simp [List.mem_filter]

/-- `dedupFirst` keeps exactly the members of the original list. -/
theorem mem_dedupFirst {l : List String} {x : String} :
    x ∈ dedupFirst l ↔ x ∈ l := by
  induction l with
  | nil => simp [dedupFirst]
  | cons k ks ih =>
    by_cases hx : x = k
    · subst hx
      simp [dedupFirst]
    · simp [dedupFirst, List.mem_filter, hx, ih]

/-- A key appearing among the watched join rows has a nonempty group. -/
theorem groupOf_ne_nil (db : DB) (k : String)
    (h : k ∈ (watchedPairs db).map keyOf) : groupOf db k ≠ [] := by
  obtain ⟨p, hp, hkp⟩ := List.mem_map.mp h
  exact List.ne_nil_of_mem (List.mem_filter.mpr ⟨hp, by simp [hkp]⟩)

/-- The display title retained for a group normalizes back to the group's
key. -/
theorem normKey_entryOf (db : DB) (k : String)
    (h : k ∈ (watchedPairs db).map keyOf) :
    normKey (entryOf db k).title = k := by
  have hne := groupOf_ne_nil db k h
  cases hg : groupOf db k with
  | nil => exact absurd hg hne
  | cons p0 g' =>
    have hp0 : p0 ∈ groupOf db k := by
      rw [hg]
      exact List.mem_cons_self _ _
    have hk0 : keyOf p0 = k := by
      have := (List.mem_filter.mp hp0).2
      simpa using this
    simpa [entryOf, hg] using hk0

/-- The keys of the grouped rows are exactly the deduplicated join keys. -/
theorem statsGroups_keys (db : DB) :
    (statsGroups db).map (fun e => normKey e.title) =
      dedupFirst ((watchedPairs db).map keyOf) := by
  unfold statsGroups
  rw [List.map_map]
  have hcong : ∀ k ∈ dedupFirst ((watchedPairs db).map keyOf),
      ((fun e => normKey e.title) ∘ entryOf db) k = id k := by
    intro k hk
    simp only [Function.comp, id]
    exact normKey_entryOf db k (mem_dedupFirst.mp hk)
  rw [List.map_congr_left hcong, List.map_id]

/-- Claim C4: the leaderboard has exactly one entry per distinct normalized
title key owning at least one watched review (titles without watched reviews
are excluded entirely), each entry carries the mean rating and count over
its group of watched reviews, and the output is sorted by descending mean
rating. -/
theorem C4_get_stats_spec (db : DB) :
    ((get_stats db).map (fun e => normKey e.title)).Nodup ∧
    (∀ k : String, (∃ e ∈ get_stats db, normKey e.title = k) ↔
      (∃ p ∈ watchedPairs db, keyOf p = k)) ∧
    (∀ e ∈ get_stats db,
      e.average_rating =
        ((groupOf db (normKey e.title)).map (fun p => p.2.rating)).sum /
          ((groupOf db (normKey e.title)).length : Rat) ∧
      e.review_count = (groupOf db (normKey e.title)).length) ∧
    List.Sorted rankLe (get_stats db) := by
  refine ⟨?_, ?_, ?_, List.sorted_insertionSort rankLe _⟩
  · have hperm : ((statsGroups db).map (fun e => normKey e.title)).Perm
        ((get_stats db).map (fun e => normKey e.title)) :=
      ((List.perm_insertionSort rankLe (statsGroups db)).symm.map _)
    refine hperm.nodup ?_
    rw [statsGroups_keys]
    exact dedupFirst_nodup _
  · intro k
    constructor
    · rintro ⟨e, he, hk⟩
      have he' : e ∈ statsGroups db := (List.mem_insertionSort rankLe).mp he
      obtain ⟨k', hk', hek⟩ := List.mem_map.mp he'
      have hkk : normKey e.title = k' := by
        rw [← hek]
        exact normKey_entryOf db k' (mem_dedupFirst.mp hk')
      rw [hk] at hkk
      subst hkk
      exact List.mem_map.mp (mem_dedupFirst.mp hk')
    · rintro ⟨p, hp, hkp⟩
      have hk : k ∈ (watchedPairs db).map keyOf :=
        List.mem_map.mpr ⟨p, hp, hkp⟩
      refine ⟨entryOf db k, ?_, normKey_entryOf db k hk⟩
      exact (List.mem_insertionSort rankLe).mpr
        (List.mem_map.mpr ⟨k, mem_dedupFirst.mpr hk, rfl⟩)
  · intro e he
    have he' : e ∈ statsGroups db := (List.mem_insertionSort rankLe).mp he
    obtain ⟨k, hk, hek⟩ := List.mem_map.mp he'
    have hkey : normKey e.title = k := by
      rw [← hek]
      exact normKey_entryOf db k (mem_dedupFirst.mp hk)
    rw [hkey, ← hek]
    exact ⟨rfl, rfl⟩

/-- Witness for C4 at the ranking example state: the output is sorted
descending, the key of title A (with watched reviews) is present, and the
key `"c"` (no title) is absent. -/
theorem C4_witness :
    List.Sorted rankLe (get_stats exRankDB) ∧
    (∃ e ∈ get_stats exRankDB, normKey e.title = "a") ∧
    ¬ (∃ e ∈ get_stats exRankDB, normKey e.title = "c") := by
  have h := C4_get_stats_spec exRankDB
  exact ⟨h.2.2.2, (h.2.1 "a").mpr (by decide),
    fun hc => absurd ((h.2.1 "c").mp hc) (by decide)⟩
